import Mathlib

/-!
Shallow embedding of the integration layer: `DataNormalizer`
(src/data_normalizer.py) and `MasterAgent` (src/master_agent.py).

Python exceptions are modelled as values of `PyErr`, carrying the error
class (`ErrKind`), the message (`str(e)`), the explicit causal link
(`__cause__`, set by `raise ... from e`) and the implicit context
(`__context__`, set whenever an exception is raised inside an `except`
block).  Logging is modelled as an output list of `LogEntry`.  Calls into
subsystems are recorded in an output list of `CallEvent` so that
"exactly one call" properties can be stated.  Fallible operations return
`Except PyErr`.
-/

set_option autoImplicit false

namespace Integration

/-- Log severities used by the code: `logger.error` and `logger.critical`. -/
inductive LogLevel : Type where
  | error
  | critical
deriving DecidableEq

/-- One emitted log record. -/
structure LogEntry : Type where
  level : LogLevel
  msg : String
deriving DecidableEq

/-- The exception classes appearing in the two source files.

Modelled from the spec: the class definitions themselves are not part of
the visible slice (the files reference `NormalizationError`,
`InitializationError`, `ProcessingError`, `AdaptationError`,
`MonitoringError`, `ModelUpdateError`, `CriticalError`,
`DataProcessingError` and `ModelPredictionError` without defining them);
the spec's error taxonomy (section 7) treats them as distinct flat kinds,
so they are modelled as distinct constructors.  `valueError` and
`keyError` stand for Python's built-in `ValueError` and `KeyError`;
`otherError` stands for an arbitrary further exception class raised by an
unseen subsystem. -/
inductive ErrKind : Type where
  | normalizationError
  | initializationError
  | processingError
  | adaptationError
  | monitoringError
  | modelUpdateError
  | criticalError
  | dataProcessingError
  | modelPredictionError
  | valueError
  | keyError
  | otherError
deriving DecidableEq

/-- A Python exception value: class, message (`str(e)`), explicit cause
(`__cause__`, only set by `raise ... from e`) and implicit context
(`__context__`, set whenever raising inside an `except` block). -/
inductive PyErr : Type where
  | mk (kind : ErrKind) (msg : String) (cause : Option PyErr) (ctx : Option PyErr)

def PyErr.kind : PyErr → ErrKind
  | .mk k _ _ _ => k

def PyErr.msg : PyErr → String
  | .mk _ m _ _ => m

def PyErr.cause : PyErr → Option PyErr
  | .mk _ _ c _ => c

def PyErr.ctx : PyErr → Option PyErr
  | .mk _ _ _ c => c

/-- Caller-supplied columnar data: an ordered mapping from field name to a
sequence of scalar values.  Scalars are modelled as rationals (the numeric
case is the only one the spec pins down; the non-numeric policy is an open
question in the spec, section 9). -/
abbrev RawRecord : Type := List (String × List ℚ)

/-- The tabular structure produced by normalization: ordered columns. -/
abbrev Table : Type := List (String × List ℚ)

/-- `true` iff every field sequence has the same length (vacuously for an
empty record), the condition under which `pd.DataFrame` accepts a dict of
sequences. -/
def allSameLength : RawRecord → Bool
  | [] => true
  | (_, v) :: rest => rest.all (fun p => p.2.length == v.length)

/-- Model of `pd.DataFrame(raw_data)` on a dict of equal-length sequences:
succeeds with the columns in the dict's insertion order, and raises
`ValueError` on ragged lengths. -/
def buildDataFrame (raw : RawRecord) : Except PyErr Table :=
  if allSameLength raw then
    Except.ok raw
  else
    Except.error (PyErr.mk ErrKind.valueError "All arrays must be of the same length" none none)

/-- The `data` configuration section held by a `DataNormalizer`:
`self.config.get('normalize')` is its only read; absent is modelled as
`none` and Python truthiness collapses to `Option.getD false`. -/
structure DataConfig : Type where
  normalize : Option Bool
deriving DecidableEq

/-- State of a `DataNormalizer` instance: its stored `config`, plus the
per-column transform.

`normCol` is modelled from the spec: the source's `_normalize_column`
method is truncated before its body, and the spec (section 4.1) only
requires a per-column transform; it is therefore carried as an explicit
function field so theorems can quantify over it. -/
structure DataNormalizer : Type where
  config : DataConfig
  normCol : List ℚ → List ℚ

/-- Everything observable about one `DataNormalizer.normalize` call: the
normalizer state after the call, the caller's raw mapping after the call
(the embedding lets mutation be expressed so that its absence is a
theorem), the emitted log records, and the returned table or raised
exception. -/
structure NormalizeRes : Type where
  state : DataNormalizer
  raw : RawRecord
  logs : List LogEntry
  res : Except PyErr Table

/-- `DataNormalizer.normalize`: build the table; if the stored config's
`normalize` flag is truthy, map the per-column transform over the columns;
on any failure log once at error level and raise `NormalizationError`
chained (`from e`) to the original exception. -/
def DataNormalizer.normalize (dn : DataNormalizer) (raw_data : RawRecord) : NormalizeRes :=
  match buildDataFrame raw_data with
  | Except.error e =>
      let m := "Normalization failed: " ++ e.msg
      ⟨dn, raw_data, [⟨LogLevel.error, m⟩],
        Except.error (PyErr.mk ErrKind.normalizationError m (some e) (some e))⟩
  | Except.ok df =>
      let out := if dn.config.normalize.getD false then
                   df.map (fun p => (p.1, dn.normCol p.2))
                 else df
      ⟨dn, raw_data, [], Except.ok out⟩

/-- Modelled from the spec: a concrete choice for the truncated
`_normalize_column` (section 4.1 suggests min-max scaling).  A constant
column maps to zeros (the `0 / 0 = 0` convention of `ℚ`).  Used only to
instantiate theorems at concrete normalizers. -/
def minmaxScale (c : List ℚ) : List ℚ :=
  match c with
  | [] => []
  | x :: xs =>
      let lo := xs.foldl min x
      let hi := xs.foldl max x
      (x :: xs).map (fun v => (v - lo) / (hi - lo))

theorem minmaxScale_length (c : List ℚ) : (minmaxScale c).length = c.length := by
  cases c with
  | nil => rfl
  | cons x xs => simp [minmaxScale]

/-! ## MasterAgent (src/master_agent.py) -/

/-- Opaque prediction mapping produced by `MLModelManager.predict`. -/
abbrev Predictions : Type := List (String × List ℚ)

/-- Opaque health-metric mapping produced by the `HealthMonitor`. -/
abbrev Health : Type := List (String × ℚ)

/-- Opaque adapted-output mapping produced by `MessagingAdapter.adapt`. -/
abbrev Output : Type := List (String × ℚ)

/-- The `models` configuration section; `handle_error` reads
`self.config['models']['fallback_model']` with plain indexing, so an
absent key is a `KeyError`. -/
structure ModelsConfig : Type where
  fallback_model : Option String
deriving DecidableEq

/-- The nested configuration mapping given to the `MasterAgent`; only the
keys the visible code reads are modelled (`messaging` is forwarded opaquely
and never read again). An absent section is `none`
(`self.config.get('data', \x7b\x7d)` then yields the empty section). -/
structure Config : Type where
  data : Option DataConfig
  models : Option ModelsConfig
deriving DecidableEq

/-- Behaviour of the external subsystems the visible slice only calls:
`MLModelManager.predict` / `update_model`, `HealthMonitor.get_health` /
`monitor`, `MessagingAdapter.adapt`, and the normalizer's `recover` hook
(none of their implementations are in the slice, so each is an arbitrary
function producing a result or a raised exception). -/
structure Subsystems : Type where
  predict : Table → Except PyErr Predictions
  update_model : String → Except PyErr Unit
  get_health : Except PyErr Health
  adapt : Predictions → Health → RawRecord → Except PyErr Output
  monitor : Except PyErr Health
  recover : Except PyErr Unit

/-- One recorded invocation of a subsystem method. -/
inductive CallEvent : Type where
  | normalizeCall
  | predictCall
  | updateModelCall (path : String)
  | getHealthCall
  | adaptMsgCall
  | monitorCall
  | recoverCall
deriving DecidableEq

/-- A `MasterAgent` instance: the stored configuration, the
`data_normalizer` subsystem (whose code is in the slice) and the external
subsystem behaviours held in the `subsystems` registry. -/
structure MasterAgent : Type where
  config : Config
  data_normalizer : DataNormalizer
  sub : Subsystems

/-- Everything observable about one `MasterAgent` method call:
the agent state after the call, the subsystem invocations made (in
order), the log records emitted, and the returned value or raised
exception. -/
structure AgentRes (α : Type) : Type where
  agent : MasterAgent
  calls : List CallEvent
  logs : List LogEntry
  res : Except PyErr α

/-- `MasterAgent._log_error`: one error-level record with the fixed
context text. -/
def logErrorEntry (message : String) : LogEntry :=
  ⟨LogLevel.error, "[ERROR] MasterAgent: " ++ message⟩

/-- The body of `MasterAgent._initialize_subsystems`: the four subsystem
constructors run in order, stopping at the first failure.  The
constructors themselves are outside the slice, so each is an arbitrary
`Except` result. -/
def initBody (c1 c2 c3 c4 : Except PyErr Unit) : Except PyErr Unit := do
  c1; c2; c3; c4

/-- `MasterAgent._initialize_subsystems`: on any constructor failure, log
the originating error text and raise `InitializationError` with a fresh
message; the `raise` carries no `from e`, so only the implicit context
links to the original exception. -/
def initialize_subsystems (c1 c2 c3 c4 : Except PyErr Unit) :
    List LogEntry × Except PyErr Unit :=
  match initBody c1 c2 c3 c4 with
  | Except.ok _ => ([], Except.ok ())
  | Except.error e =>
      ([logErrorEntry ("Failed to initialize subsystems: " ++ e.msg)],
       Except.error (PyErr.mk ErrKind.initializationError
         "Critical failure in initializing core components." none (some e)))

/-- `MasterAgent.adapt`: read health, then call the messaging adapter;
any failure is logged and re-raised as `AdaptationError` chained
(`from e`) to the original. -/
def MasterAgent.adapt (ag : MasterAgent) (predictions : Predictions)
    (input_data : RawRecord) : AgentRes Output :=
  match ag.sub.get_health with
  | Except.error e =>
      let m := "Adaptation failed: " ++ e.msg
      ⟨ag, [CallEvent.getHealthCall], [logErrorEntry m],
        Except.error (PyErr.mk ErrKind.adaptationError m (some e) (some e))⟩
  | Except.ok current_health =>
      match ag.sub.adapt predictions current_health input_data with
      | Except.error e =>
          let m := "Adaptation failed: " ++ e.msg
          ⟨ag, [CallEvent.getHealthCall, CallEvent.adaptMsgCall], [logErrorEntry m],
            Except.error (PyErr.mk ErrKind.adaptationError m (some e) (some e))⟩
      | Except.ok adapted_params =>
          ⟨ag, [CallEvent.getHealthCall, CallEvent.adaptMsgCall], [], Except.ok adapted_params⟩

/-- `MasterAgent.process_data`: normalize, predict, adapt, in sequence;
any failure is logged and re-raised as `ProcessingError` chained
(`from e`) to the exception of the failing step. -/
def MasterAgent.process_data (ag : MasterAgent) (raw_data : RawRecord) : AgentRes Output :=
  let n := ag.data_normalizer.normalize raw_data
  match n.res with
  | Except.error e =>
      let m := "Data processing failed: " ++ e.msg
      ⟨ag, [CallEvent.normalizeCall], n.logs ++ [logErrorEntry m],
        Except.error (PyErr.mk ErrKind.processingError m (some e) (some e))⟩
  | Except.ok normalized_data =>
      match ag.sub.predict normalized_data with
      | Except.error e =>
          let m := "Data processing failed: " ++ e.msg
          ⟨ag, [CallEvent.normalizeCall, CallEvent.predictCall],
            n.logs ++ [logErrorEntry m],
            Except.error (PyErr.mk ErrKind.processingError m (some e) (some e))⟩
      | Except.ok predictions =>
          let a := ag.adapt predictions raw_data
          match a.res with
          | Except.error e =>
              let m := "Data processing failed: " ++ e.msg
              ⟨ag, [CallEvent.normalizeCall, CallEvent.predictCall] ++ a.calls,
                n.logs ++ a.logs ++ [logErrorEntry m],
                Except.error (PyErr.mk ErrKind.processingError m (some e) (some e))⟩
          | Except.ok adapted_output =>
              ⟨ag, [CallEvent.normalizeCall, CallEvent.predictCall] ++ a.calls,
                n.logs ++ a.logs, Except.ok adapted_output⟩

/-- `MasterAgent.monitor`: delegate to the health monitor; failure is
logged and re-raised as `MonitoringError` chained to the original. -/
def MasterAgent.monitor (ag : MasterAgent) : AgentRes Health :=
  match ag.sub.monitor with
  | Except.error e =>
      let m := "Monitoring failed: " ++ e.msg
      ⟨ag, [CallEvent.monitorCall], [logErrorEntry m],
        Except.error (PyErr.mk ErrKind.monitoringError m (some e) (some e))⟩
  | Except.ok h => ⟨ag, [CallEvent.monitorCall], [], Except.ok h⟩

/-- `MasterAgent.update_model`: delegate to the model manager; on failure
the log message names only the failing path (the source interpolates
`new_model_path`, not `str(e)`), and `ModelUpdateError` is raised chained
(`from e`) to the original. -/
def MasterAgent.update_model (ag : MasterAgent) (new_model_path : String) : AgentRes Unit :=
  match ag.sub.update_model new_model_path with
  | Except.error e =>
      let m := "Failed to update model from " ++ new_model_path
      ⟨ag, [CallEvent.updateModelCall new_model_path], [logErrorEntry m],
        Except.error (PyErr.mk ErrKind.modelUpdateError m (some e) (some e))⟩
  | Except.ok _ =>
      ⟨ag, [CallEvent.updateModelCall new_model_path], [], Except.ok ()⟩

/-- `self.config['models']['fallback_model']` with plain indexing: an
absent section or key raises `KeyError`. -/
def lookupFallbackModel (config : Config) : Except PyErr String :=
  match config.models with
  | none => Except.error (PyErr.mk ErrKind.keyError "models" none none)
  | some m =>
      match m.fallback_model with
      | none => Except.error (PyErr.mk ErrKind.keyError "fallback_model" none none)
      | some p => Except.ok p

/-- `MasterAgent.handle_error`: log the incoming error, then dispatch on
its class — `DataProcessingError` triggers the normalizer's `recover`
hook, `ModelPredictionError` triggers `update_model` with the configured
fallback path, anything else falls through.  If anything inside the
`try` raises, it is logged at critical level and `CriticalError` is
raised with a fresh message and no `from e` (implicit context only). -/
def MasterAgent.handle_error (ag : MasterAgent) (error : PyErr) : AgentRes Unit :=
  let l0 : LogEntry := logErrorEntry error.msg
  if error.kind = ErrKind.dataProcessingError then
    match ag.sub.recover with
    | Except.ok _ => ⟨ag, [CallEvent.recoverCall], [l0], Except.ok ()⟩
    | Except.error e =>
        ⟨ag, [CallEvent.recoverCall],
          [l0, ⟨LogLevel.critical, "Failed to handle error: " ++ e.msg⟩],
          Except.error (PyErr.mk ErrKind.criticalError "Unhandled system failure." none (some e))⟩
  else if error.kind = ErrKind.modelPredictionError then
    match lookupFallbackModel ag.config with
    | Except.error e =>
        ⟨ag, [],
          [l0, ⟨LogLevel.critical, "Failed to handle error: " ++ e.msg⟩],
          Except.error (PyErr.mk ErrKind.criticalError "Unhandled system failure." none (some e))⟩
    | Except.ok p =>
        let u := ag.update_model p
        match u.res with
        | Except.ok _ => ⟨ag, u.calls, l0 :: u.logs, Except.ok ()⟩
        | Except.error e =>
            ⟨ag, u.calls,
              l0 :: u.logs ++ [⟨LogLevel.critical, "Failed to handle error: " ++ e.msg⟩],
              Except.error (PyErr.mk ErrKind.criticalError "Unhandled system failure." none (some e))⟩
  else
    ⟨ag, [], [l0], Except.ok ()⟩

/-! ## Fixtures used by witnesses -/

/-- A well-formed raw record (the spec's end-to-end example). -/
def rawGood : RawRecord := [("x", [1, 2, 3]), ("y", [10, 20, 30])]

/-- The ragged raw record of the spec's failing end-to-end scenario. -/
def rawRagged : RawRecord := [("x", [1, 2]), ("y", [1, 2, 3])]

/-- A normalizer whose config has no `normalize` flag. -/
def dn0 : DataNormalizer := ⟨⟨none⟩, minmaxScale⟩

/-- A normalizer with the `normalize` flag set. -/
def dnScale : DataNormalizer := ⟨⟨some true⟩, minmaxScale⟩

/-- The `ValueError` pandas raises on ragged input. -/
def raggedErr : PyErr :=
  PyErr.mk ErrKind.valueError "All arrays must be of the same length" none none

/-! ## Normalizer lemmas -/

theorem buildDataFrame_ok {raw : RawRecord} (h : allSameLength raw = true) :
    buildDataFrame raw = Except.ok raw := by
  simp [buildDataFrame, h]

theorem buildDataFrame_ragged {raw : RawRecord} (h : allSameLength raw = false) :
    buildDataFrame raw = Except.error raggedErr := by
  simp [buildDataFrame, h, raggedErr]

theorem normalize_wellformed (dn : DataNormalizer) (raw : RawRecord)
    (h : allSameLength raw = true) :
    dn.normalize raw =
      ⟨dn, raw, [],
        Except.ok (if dn.config.normalize.getD false then
          raw.map (fun p => (p.1, dn.normCol p.2)) else raw)⟩ := by
  simp only [DataNormalizer.normalize, buildDataFrame_ok h]

theorem normalize_ragged (dn : DataNormalizer) (raw : RawRecord)
    (h : allSameLength raw = false) :
    dn.normalize raw =
      ⟨dn, raw,
        [⟨LogLevel.error, "Normalization failed: " ++ raggedErr.msg⟩],
        Except.error (PyErr.mk ErrKind.normalizationError
          ("Normalization failed: " ++ raggedErr.msg) (some raggedErr) (some raggedErr))⟩ := by
  simp only [DataNormalizer.normalize, buildDataFrame_ragged h]

/-! ## Claims C3, C4, C7, C10 -/

/-- C3: on a well-formed raw record (all field sequences of equal length),
and for a per-column transform that preserves column length (the spec's
contract for the truncated `_normalize_column`), `normalize` returns a
table with as many columns as the input has fields, the same field names
in the same order, and each column of the same length as its input
column (hence row count equal to the common sequence length). -/
theorem C3_normalize_shape (dn : DataNormalizer) (raw : RawRecord)
    (hlen : ∀ c, (dn.normCol c).length = c.length)
    (h : allSameLength raw = true) :
    ∃ t, (dn.normalize raw).res = Except.ok t ∧
      t.length = raw.length ∧
      t.map (fun p => p.1) = raw.map (fun p => p.1) ∧
      t.map (fun p => p.2.length) = raw.map (fun p => p.2.length) := by
  rw [normalize_wellformed dn raw h]
  by_cases hb : dn.config.normalize.getD false
  · refine ⟨raw.map (fun p => (p.1, dn.normCol p.2)), ?_, ?_, ?_, ?_⟩
    · simp [hb]
    · simp
    · simp [List.map_map, Function.comp]
    · simp [List.map_map, Function.comp, hlen]
  · exact ⟨raw, by simp [hb], rfl, rfl, rfl⟩

/-- Witness for C3 at the spec's example record, with the modelled
min-max transform. -/
theorem C3_witness :
    ∃ t, (dnScale.normalize rawGood).res = Except.ok t ∧
      t.length = rawGood.length ∧
      t.map (fun p => p.1) = rawGood.map (fun p => p.1) ∧
      t.map (fun p => p.2.length) = rawGood.map (fun p => p.2.length) :=
  C3_normalize_shape dnScale rawGood (fun c => minmaxScale_length c) (by decide)

/-- C4: on ragged input `normalize` raises `NormalizationError` and emits
exactly one log entry, at error level; on a successful call it emits no
log entry. -/
theorem C4_normalize_logging (dn : DataNormalizer) (raw : RawRecord) :
    (allSameLength raw = false →
      (dn.normalize raw).logs.length = 1 ∧
      (∀ l ∈ (dn.normalize raw).logs, l.level = LogLevel.error) ∧
      ∃ err, (dn.normalize raw).res = Except.error err ∧
        err.kind = ErrKind.normalizationError) ∧
    (∀ t, (dn.normalize raw).res = Except.ok t → (dn.normalize raw).logs = []) := by
  constructor
  · intro h
    rw [normalize_ragged dn raw h]
    exact ⟨rfl, by simp, _, rfl, rfl⟩
  · intro t ht
    cases h : allSameLength raw with
    | false => rw [normalize_ragged dn raw h] at ht; cases ht
    | true => rw [normalize_wellformed dn raw h]

/-- Witness for C4: the ragged record yields one error log and a
`NormalizationError`; the well-formed record yields no log. -/
theorem C4_witness :
    ((dn0.normalize rawRagged).logs.length = 1 ∧
      (∀ l ∈ (dn0.normalize rawRagged).logs, l.level = LogLevel.error) ∧
      ∃ err, (dn0.normalize rawRagged).res = Except.error err ∧
        err.kind = ErrKind.normalizationError) ∧
    (dn0.normalize rawGood).logs = [] :=
  ⟨(C4_normalize_logging dn0 rawRagged).1 (by decide),
   (C4_normalize_logging dn0 rawGood).2 rawGood (by rfl)⟩

/-- C7: when the `normalize` flag is false or absent, `normalize` returns
the input values unchanged (on any input it can return from at all). -/
theorem C7_identity_without_flag (dn : DataNormalizer) (raw : RawRecord)
    (hflag : dn.config.normalize.getD false = false)
    (h : allSameLength raw = true) :
    (dn.normalize raw).res = Except.ok raw := by
  rw [normalize_wellformed dn raw h, hflag]
  rfl

/-- Witness for C7 at the flagless normalizer and the example record. -/
theorem C7_witness : (dn0.normalize rawGood).res = Except.ok rawGood :=
  C7_identity_without_flag dn0 rawGood (by decide) (by decide)

/-- C10: `normalize` never mutates the caller's raw mapping nor the
normalizer's stored configuration: both come back unchanged from every
call. -/
theorem C10_normalize_frame (dn : DataNormalizer) (raw : RawRecord) :
    (dn.normalize raw).state = dn ∧ (dn.normalize raw).raw = raw := by
  cases h : allSameLength raw with
  | false => rw [normalize_ragged dn raw h]; exact ⟨rfl, rfl⟩
  | true => rw [normalize_wellformed dn raw h]; exact ⟨rfl, rfl⟩

/-- Witness for C10 at a concrete normalizer and record. -/
theorem C10_witness :
    (dn0.normalize rawRagged).state = dn0 ∧ (dn0.normalize rawRagged).raw = rawRagged :=
  C10_normalize_frame dn0 rawRagged

/-! ## Evaluation lemmas for the MasterAgent operations -/

theorem adapt_health_error (ag : MasterAgent) (p : Predictions) (i : RawRecord) (e : PyErr)
    (h : ag.sub.get_health = Except.error e) :
    ag.adapt p i =
      ⟨ag, [CallEvent.getHealthCall], [logErrorEntry ("Adaptation failed: " ++ e.msg)],
        Except.error (PyErr.mk ErrKind.adaptationError
          ("Adaptation failed: " ++ e.msg) (some e) (some e))⟩ := by
  simp only [MasterAgent.adapt, h]

theorem adapt_msg_error (ag : MasterAgent) (p : Predictions) (i : RawRecord)
    (hh : Health) (e : PyErr)
    (h : ag.sub.get_health = Except.ok hh)
    (h2 : ag.sub.adapt p hh i = Except.error e) :
    ag.adapt p i =
      ⟨ag, [CallEvent.getHealthCall, CallEvent.adaptMsgCall],
        [logErrorEntry ("Adaptation failed: " ++ e.msg)],
        Except.error (PyErr.mk ErrKind.adaptationError
          ("Adaptation failed: " ++ e.msg) (some e) (some e))⟩ := by
  simp only [MasterAgent.adapt, h, h2]

theorem adapt_ok (ag : MasterAgent) (p : Predictions) (i : RawRecord)
    (hh : Health) (out : Output)
    (h : ag.sub.get_health = Except.ok hh)
    (h2 : ag.sub.adapt p hh i = Except.ok out) :
    ag.adapt p i =
      ⟨ag, [CallEvent.getHealthCall, CallEvent.adaptMsgCall], [], Except.ok out⟩ := by
  simp only [MasterAgent.adapt, h, h2]

theorem process_data_norm_error (ag : MasterAgent) (raw : RawRecord) (e : PyErr)
    (h : (ag.data_normalizer.normalize raw).res = Except.error e) :
    ag.process_data raw =
      ⟨ag, [CallEvent.normalizeCall],
        (ag.data_normalizer.normalize raw).logs ++
          [logErrorEntry ("Data processing failed: " ++ e.msg)],
        Except.error (PyErr.mk ErrKind.processingError
          ("Data processing failed: " ++ e.msg) (some e) (some e))⟩ := by
  simp only [MasterAgent.process_data, h]

theorem process_data_predict_error (ag : MasterAgent) (raw : RawRecord)
    (t : Table) (e : PyErr)
    (h : (ag.data_normalizer.normalize raw).res = Except.ok t)
    (h2 : ag.sub.predict t = Except.error e) :
    ag.process_data raw =
      ⟨ag, [CallEvent.normalizeCall, CallEvent.predictCall],
        (ag.data_normalizer.normalize raw).logs ++
          [logErrorEntry ("Data processing failed: " ++ e.msg)],
        Except.error (PyErr.mk ErrKind.processingError
          ("Data processing failed: " ++ e.msg) (some e) (some e))⟩ := by
  simp only [MasterAgent.process_data, h, h2]

theorem process_data_adapt_error (ag : MasterAgent) (raw : RawRecord)
    (t : Table) (preds : Predictions) (e : PyErr)
    (h : (ag.data_normalizer.normalize raw).res = Except.ok t)
    (h2 : ag.sub.predict t = Except.ok preds)
    (h3 : (ag.adapt preds raw).res = Except.error e) :
    ag.process_data raw =
      ⟨ag, [CallEvent.normalizeCall, CallEvent.predictCall] ++ (ag.adapt preds raw).calls,
        (ag.data_normalizer.normalize raw).logs ++ (ag.adapt preds raw).logs ++
          [logErrorEntry ("Data processing failed: " ++ e.msg)],
        Except.error (PyErr.mk ErrKind.processingError
          ("Data processing failed: " ++ e.msg) (some e) (some e))⟩ := by
  simp only [MasterAgent.process_data, h, h2, h3]

theorem process_data_ok (ag : MasterAgent) (raw : RawRecord)
    (t : Table) (preds : Predictions) (out : Output)
    (h : (ag.data_normalizer.normalize raw).res = Except.ok t)
    (h2 : ag.sub.predict t = Except.ok preds)
    (h3 : (ag.adapt preds raw).res = Except.ok out) :
    ag.process_data raw =
      ⟨ag, [CallEvent.normalizeCall, CallEvent.predictCall] ++ (ag.adapt preds raw).calls,
        (ag.data_normalizer.normalize raw).logs ++ (ag.adapt preds raw).logs,
        Except.ok out⟩ := by
  simp only [MasterAgent.process_data, h, h2, h3]

theorem monitor_error (ag : MasterAgent) (e : PyErr)
    (h : ag.sub.monitor = Except.error e) :
    ag.monitor =
      ⟨ag, [CallEvent.monitorCall], [logErrorEntry ("Monitoring failed: " ++ e.msg)],
        Except.error (PyErr.mk ErrKind.monitoringError
          ("Monitoring failed: " ++ e.msg) (some e) (some e))⟩ := by
  simp only [MasterAgent.monitor, h]

theorem update_model_error (ag : MasterAgent) (path : String) (e : PyErr)
    (h : ag.sub.update_model path = Except.error e) :
    ag.update_model path =
      ⟨ag, [CallEvent.updateModelCall path],
        [logErrorEntry ("Failed to update model from " ++ path)],
        Except.error (PyErr.mk ErrKind.modelUpdateError
          ("Failed to update model from " ++ path) (some e) (some e))⟩ := by
  simp only [MasterAgent.update_model, h]

theorem update_model_ok (ag : MasterAgent) (path : String)
    (h : ag.sub.update_model path = Except.ok ()) :
    ag.update_model path =
      ⟨ag, [CallEvent.updateModelCall path], [], Except.ok ()⟩ := by
  simp only [MasterAgent.update_model, h]

theorem handle_error_dp_ok (ag : MasterAgent) (error : PyErr)
    (hk : error.kind = ErrKind.dataProcessingError)
    (hr : ag.sub.recover = Except.ok ()) :
    ag.handle_error error =
      ⟨ag, [CallEvent.recoverCall], [logErrorEntry error.msg], Except.ok ()⟩ := by
  simp only [MasterAgent.handle_error, hk, hr, if_true, reduceIte]

theorem handle_error_dp_fail (ag : MasterAgent) (error : PyErr) (e : PyErr)
    (hk : error.kind = ErrKind.dataProcessingError)
    (hr : ag.sub.recover = Except.error e) :
    ag.handle_error error =
      ⟨ag, [CallEvent.recoverCall],
        [logErrorEntry error.msg, ⟨LogLevel.critical, "Failed to handle error: " ++ e.msg⟩],
        Except.error (PyErr.mk ErrKind.criticalError
          "Unhandled system failure." none (some e))⟩ := by
  simp only [MasterAgent.handle_error, hk, hr, if_true, reduceIte]

theorem handle_error_mp_lookup_fail (ag : MasterAgent) (error : PyErr) (e : PyErr)
    (hk : error.kind = ErrKind.modelPredictionError)
    (hl : lookupFallbackModel ag.config = Except.error e) :
    ag.handle_error error =
      ⟨ag, [],
        [logErrorEntry error.msg, ⟨LogLevel.critical, "Failed to handle error: " ++ e.msg⟩],
        Except.error (PyErr.mk ErrKind.criticalError
          "Unhandled system failure." none (some e))⟩ := by
  simp only [MasterAgent.handle_error, hk, hl, reduceIte]
  rw [if_neg (by decide)]

theorem handle_error_mp_update_ok (ag : MasterAgent) (error : PyErr) (p : String)
    (hk : error.kind = ErrKind.modelPredictionError)
    (hl : lookupFallbackModel ag.config = Except.ok p)
    (hu : ag.sub.update_model p = Except.ok ()) :
    ag.handle_error error =
      ⟨ag, [CallEvent.updateModelCall p], [logErrorEntry error.msg], Except.ok ()⟩ := by
  simp only [MasterAgent.handle_error, hk, hl, update_model_ok ag p hu, reduceIte]
  rw [if_neg (by decide)]

theorem handle_error_mp_update_fail (ag : MasterAgent) (error : PyErr) (p : String) (e : PyErr)
    (hk : error.kind = ErrKind.modelPredictionError)
    (hl : lookupFallbackModel ag.config = Except.ok p)
    (hu : ag.sub.update_model p = Except.error e) :
    ag.handle_error error =
      ⟨ag, [CallEvent.updateModelCall p],
        [logErrorEntry error.msg,
         logErrorEntry ("Failed to update model from " ++ p),
         ⟨LogLevel.critical,
           "Failed to handle error: " ++ ("Failed to update model from " ++ p)⟩],
        Except.error (PyErr.mk ErrKind.criticalError "Unhandled system failure." none
          (some (PyErr.mk ErrKind.modelUpdateError
            ("Failed to update model from " ++ p) (some e) (some e))))⟩ := by
  simp only [MasterAgent.handle_error, hk, hl, update_model_error ag p e hu, reduceIte]
  rw [if_neg (by decide)]
  simp [PyErr.msg]

theorem handle_error_other (ag : MasterAgent) (error : PyErr)
    (hk1 : error.kind ≠ ErrKind.dataProcessingError)
    (hk2 : error.kind ≠ ErrKind.modelPredictionError) :
    ag.handle_error error = ⟨ag, [], [logErrorEntry error.msg], Except.ok ()⟩ := by
  simp only [MasterAgent.handle_error, hk1, hk2, reduceIte]

/-! ## Agent fixtures used by witnesses -/

/-- A failure raised by an unseen subsystem. -/
def bootErr : PyErr := PyErr.mk ErrKind.otherError "disk full" none none

/-- Stub subsystem behaviours that always succeed. -/
def subOK : Subsystems where
  predict := fun _ => Except.ok [("score", [1, 2, 3])]
  update_model := fun _ => Except.ok ()
  get_health := Except.ok [("ok", 1)]
  adapt := fun _ _ _ => Except.ok [("adapted", 1)]
  monitor := Except.ok [("ok", 1)]
  recover := Except.ok ()

/-- Stub subsystems that always fail with `bootErr`. -/
def subFail : Subsystems where
  predict := fun _ => Except.error bootErr
  update_model := fun _ => Except.error bootErr
  get_health := Except.error bootErr
  adapt := fun _ _ _ => Except.error bootErr
  monitor := Except.error bootErr
  recover := Except.error bootErr

/-- The spec's example configuration. -/
def cfg0 : Config := ⟨some ⟨some true⟩, some ⟨some "m0.bin"⟩⟩

/-- A configuration with no `models` section. -/
def cfgEmpty : Config := ⟨none, none⟩

/-- An agent over healthy stub subsystems. -/
def agOK : MasterAgent := ⟨cfg0, dnScale, subOK⟩

/-- An agent over failing stub subsystems. -/
def agFail : MasterAgent := ⟨cfg0, dn0, subFail⟩

/-- An agent whose configuration lacks the `models` section. -/
def agNoModels : MasterAgent := ⟨cfgEmpty, dn0, subOK⟩

/-- A data-processing-kind error value. -/
def dpErr : PyErr := PyErr.mk ErrKind.dataProcessingError "data glitch" none none

/-- A model-prediction-kind error value. -/
def mpErr : PyErr := PyErr.mk ErrKind.modelPredictionError "model glitch" none none

/-- An error value of some other kind. -/
def plainErr : PyErr := PyErr.mk ErrKind.otherError "misc" none none

/-! ## Claims C2, C5, C6, C8, C9 -/

/-- C2: `handle_error` on a data-processing-kind error calls exactly the
normalizer's `recover` hook and nothing else; on a model-prediction-kind
error it calls exactly `update_model` once with the configured fallback
path and nothing else; on any other kind it makes no subsystem call. -/
theorem C2_handle_error_dispatch (ag : MasterAgent) (error : PyErr) :
    (error.kind = ErrKind.dataProcessingError →
      (ag.handle_error error).calls = [CallEvent.recoverCall]) ∧
    (∀ p, error.kind = ErrKind.modelPredictionError →
      lookupFallbackModel ag.config = Except.ok p →
      (ag.handle_error error).calls = [CallEvent.updateModelCall p]) ∧
    (error.kind ≠ ErrKind.dataProcessingError →
      error.kind ≠ ErrKind.modelPredictionError →
      (ag.handle_error error).calls = []) := by
  refine ⟨?_, ?_, ?_⟩
  · intro hk
    cases hr : ag.sub.recover with
    | ok u => cases u; rw [handle_error_dp_ok ag error hk hr]
    | error e => rw [handle_error_dp_fail ag error e hk hr]
  · intro p hk hl
    cases hu : ag.sub.update_model p with
    | ok u => cases u; rw [handle_error_mp_update_ok ag error p hk hl hu]
    | error e => rw [handle_error_mp_update_fail ag error p e hk hl hu]
  · intro h1 h2
    rw [handle_error_other ag error h1 h2]

/-- Witness for C2: each dispatch branch at a concrete agent and error. -/
theorem C2_witness :
    (agFail.handle_error dpErr).calls = [CallEvent.recoverCall] ∧
    (agOK.handle_error mpErr).calls = [CallEvent.updateModelCall "m0.bin"] ∧
    (agOK.handle_error plainErr).calls = [] :=
  ⟨(C2_handle_error_dispatch agFail dpErr).1 rfl,
   (C2_handle_error_dispatch agOK mpErr).2.1 "m0.bin" rfl rfl,
   (C2_handle_error_dispatch agOK plainErr).2.2 (by decide) (by decide)⟩

/-- C5: on ragged input, `process_data` raises `ProcessingError` whose
causal chain holds a `NormalizationError`. -/
theorem C5_ragged_processing_cause (ag : MasterAgent) (raw : RawRecord)
    (h : allSameLength raw = false) :
    ∃ p, (ag.process_data raw).res = Except.error p ∧
      p.kind = ErrKind.processingError ∧
      ∃ c, p.cause = some c ∧ c.kind = ErrKind.normalizationError := by
  have hn : (ag.data_normalizer.normalize raw).res =
      Except.error (PyErr.mk ErrKind.normalizationError
        ("Normalization failed: " ++ raggedErr.msg) (some raggedErr) (some raggedErr)) := by
    rw [normalize_ragged ag.data_normalizer raw h]
  rw [process_data_norm_error ag raw _ hn]
  exact ⟨_, rfl, rfl, _, rfl, rfl⟩

/-- Witness for C5 at the spec's mismatched-length example. -/
theorem C5_witness :
    ∃ p, (agOK.process_data rawRagged).res = Except.error p ∧
      p.kind = ErrKind.processingError ∧
      ∃ c, p.cause = some c ∧ c.kind = ErrKind.normalizationError :=
  C5_ragged_processing_cause agOK rawRagged (by decide)

/-- C6: `process_data` is atomic in effect: the agent state is unchanged,
the call either returns an output or raises `ProcessingError`, and an
output is returned only when all three steps succeeded (so no partial
result is observable). -/
theorem C6_process_data_atomic (ag : MasterAgent) (raw : RawRecord) :
    (ag.process_data raw).agent = ag ∧
    ((∃ out, (ag.process_data raw).res = Except.ok out) ∨
      (∃ e, (ag.process_data raw).res = Except.error e ∧
        e.kind = ErrKind.processingError)) ∧
    (∀ out, (ag.process_data raw).res = Except.ok out →
      ∃ t preds, (ag.data_normalizer.normalize raw).res = Except.ok t ∧
        ag.sub.predict t = Except.ok preds ∧
        (ag.adapt preds raw).res = Except.ok out) := by
  cases hn : (ag.data_normalizer.normalize raw).res with
  | error e =>
      rw [process_data_norm_error ag raw e hn]
      refine ⟨rfl, Or.inr ⟨_, rfl, rfl⟩, ?_⟩
      intro out hout
      simp at hout
  | ok t =>
      cases hp : ag.sub.predict t with
      | error e =>
          rw [process_data_predict_error ag raw t e hn hp]
          refine ⟨rfl, Or.inr ⟨_, rfl, rfl⟩, ?_⟩
          intro out hout
          simp at hout
      | ok preds =>
          cases ha : (ag.adapt preds raw).res with
          | error e =>
              rw [process_data_adapt_error ag raw t preds e hn hp ha]
              refine ⟨rfl, Or.inr ⟨_, rfl, rfl⟩, ?_⟩
              intro out hout
              simp at hout
          | ok out =>
              rw [process_data_ok ag raw t preds out hn hp ha]
              refine ⟨rfl, Or.inl ⟨out, rfl⟩, ?_⟩
              intro out2 hout
              simp only [Except.ok.injEq] at hout
              subst hout
              exact ⟨t, preds, rfl, hp, ha⟩

/-- Witness for C6 at a concrete agent and record. -/
theorem C6_witness :
    (agOK.process_data rawGood).agent = agOK ∧
    ((∃ out, (agOK.process_data rawGood).res = Except.ok out) ∨
      (∃ e, (agOK.process_data rawGood).res = Except.error e ∧
        e.kind = ErrKind.processingError)) ∧
    (∀ out, (agOK.process_data rawGood).res = Except.ok out →
      ∃ t preds, (agOK.data_normalizer.normalize rawGood).res = Except.ok t ∧
        agOK.sub.predict t = Except.ok preds ∧
        (agOK.adapt preds rawGood).res = Except.ok out) :=
  C6_process_data_atomic agOK rawGood

/-- C8: if the selected recovery action inside `handle_error` fails, the
failure is logged at critical severity and `CriticalError` is raised; in
every successful-recovery or no-action case `handle_error` returns
normally, so `CriticalError` arises only from recovery failure. -/
theorem C8_recovery_failure_escalation (ag : MasterAgent) (error : PyErr) :
    (∀ e, error.kind = ErrKind.dataProcessingError →
      ag.sub.recover = Except.error e →
      (∃ l ∈ (ag.handle_error error).logs, l.level = LogLevel.critical) ∧
      ∃ c, (ag.handle_error error).res = Except.error c ∧
        c.kind = ErrKind.criticalError) ∧
    (∀ e, error.kind = ErrKind.modelPredictionError →
      lookupFallbackModel ag.config = Except.error e →
      (∃ l ∈ (ag.handle_error error).logs, l.level = LogLevel.critical) ∧
      ∃ c, (ag.handle_error error).res = Except.error c ∧
        c.kind = ErrKind.criticalError) ∧
    (∀ p e, error.kind = ErrKind.modelPredictionError →
      lookupFallbackModel ag.config = Except.ok p →
      ag.sub.update_model p = Except.error e →
      (∃ l ∈ (ag.handle_error error).logs, l.level = LogLevel.critical) ∧
      ∃ c, (ag.handle_error error).res = Except.error c ∧
        c.kind = ErrKind.criticalError) ∧
    (error.kind = ErrKind.dataProcessingError → ag.sub.recover = Except.ok () →
      (ag.handle_error error).res = Except.ok ()) ∧
    (∀ p, error.kind = ErrKind.modelPredictionError →
      lookupFallbackModel ag.config = Except.ok p →
      ag.sub.update_model p = Except.ok () →
      (ag.handle_error error).res = Except.ok ()) ∧
    (error.kind ≠ ErrKind.dataProcessingError →
      error.kind ≠ ErrKind.modelPredictionError →
      (ag.handle_error error).res = Except.ok ()) := by
  refine ⟨?_, ?_, ?_, ?_, ?_, ?_⟩
  · intro e hk hr
    rw [handle_error_dp_fail ag error e hk hr]
    exact ⟨⟨⟨LogLevel.critical, "Failed to handle error: " ++ e.msg⟩,
      List.mem_cons_of_mem _ (List.mem_singleton.mpr rfl), rfl⟩, _, rfl, rfl⟩
  · intro e hk hl
    rw [handle_error_mp_lookup_fail ag error e hk hl]
    exact ⟨⟨⟨LogLevel.critical, "Failed to handle error: " ++ e.msg⟩,
      List.mem_cons_of_mem _ (List.mem_singleton.mpr rfl), rfl⟩, _, rfl, rfl⟩
  · intro p e hk hl hu
    rw [handle_error_mp_update_fail ag error p e hk hl hu]
    refine ⟨⟨⟨LogLevel.critical,
      "Failed to handle error: " ++ ("Failed to update model from " ++ p)⟩,
      ?_, rfl⟩, _, rfl, rfl⟩
    exact List.mem_cons_of_mem _ (List.mem_cons_of_mem _ (List.mem_singleton.mpr rfl))
  · intro hk hr
    rw [handle_error_dp_ok ag error hk hr]
  · intro p hk hl hu
    rw [handle_error_mp_update_ok ag error p hk hl hu]
  · intro h1 h2
    rw [handle_error_other ag error h1 h2]

/-- Witness for C8: a failing `recover` hook at a concrete agent yields a
critical log and `CriticalError`. -/
theorem C8_witness :
    (∃ l ∈ (agFail.handle_error dpErr).logs, l.level = LogLevel.critical) ∧
    ∃ c, (agFail.handle_error dpErr).res = Except.error c ∧
      c.kind = ErrKind.criticalError :=
  (C8_recovery_failure_escalation agFail dpErr).1 bootErr rfl rfl

/-- C9: with the `models` section or its `fallback_model` key absent,
`handle_error` on a model-prediction-kind error escalates the `KeyError`
from the recovery branch as `CriticalError` (kept as the implicit
context), rather than raising the key-lookup error itself or returning. -/
theorem C9_missing_fallback_config (ag : MasterAgent) (error : PyErr)
    (hk : error.kind = ErrKind.modelPredictionError)
    (hc : ag.config.models = none ∨
      ∃ m, ag.config.models = some m ∧ m.fallback_model = none) :
    ∃ c, (ag.handle_error error).res = Except.error c ∧
      c.kind = ErrKind.criticalError ∧
      ∃ k, c.ctx = some k ∧ k.kind = ErrKind.keyError := by
  have hl : ∃ e, lookupFallbackModel ag.config = Except.error e ∧
      e.kind = ErrKind.keyError := by
    rcases hc with h | ⟨m, hm, hf⟩
    · exact ⟨PyErr.mk ErrKind.keyError "models" none none,
        by simp [lookupFallbackModel, h], rfl⟩
    · exact ⟨PyErr.mk ErrKind.keyError "fallback_model" none none,
        by simp [lookupFallbackModel, hm, hf], rfl⟩
  obtain ⟨e, hl, hke⟩ := hl
  rw [handle_error_mp_lookup_fail ag error e hk hl]
  exact ⟨_, rfl, rfl, e, rfl, hke⟩

/-- Witness for C9 at an agent with no `models` section. -/
theorem C9_witness :
    ∃ c, (agNoModels.handle_error mpErr).res = Except.error c ∧
      c.kind = ErrKind.criticalError ∧
      ∃ k, c.ctx = some k ∧ k.kind = ErrKind.keyError :=
  C9_missing_fallback_config agNoModels mpErr rfl (Or.inl rfl)

/-! ## Claim C1 -/

/-- Some emitted log record's message contains the string `s`. -/
def logMentions (logs : List LogEntry) (s : String) : Prop :=
  ∃ l ∈ logs, ∃ a b, l.msg = a ++ s ++ b

/-- The boundary policy C1 claims of each operation: whenever the
operation raises, the raised error is of the operation's domain kind,
its explicit cause is the originating exception, and the originating
error text appears in an emitted log record. -/
def relabeled {α : Type} (logs : List LogEntry) (res : Except PyErr α) (k : ErrKind) : Prop :=
  ∀ err : PyErr, res = Except.error err →
    err.kind = k ∧ ∃ orig : PyErr, err.cause = some orig ∧ logMentions logs orig.msg

/-- Claim C1 as stated: the boundary policy holds at every public
operation, initialization and `handle_error` recovery included. -/
def C1Claim : Prop :=
  (∀ (dn : DataNormalizer) (raw : RawRecord),
    relabeled (dn.normalize raw).logs (dn.normalize raw).res ErrKind.normalizationError) ∧
  (∀ (ag : MasterAgent) (raw : RawRecord),
    relabeled (ag.process_data raw).logs (ag.process_data raw).res ErrKind.processingError) ∧
  (∀ (ag : MasterAgent) (p : Predictions) (i : RawRecord),
    relabeled (ag.adapt p i).logs (ag.adapt p i).res ErrKind.adaptationError) ∧
  (∀ ag : MasterAgent,
    relabeled ag.monitor.logs ag.monitor.res ErrKind.monitoringError) ∧
  (∀ (ag : MasterAgent) (path : String),
    relabeled (ag.update_model path).logs (ag.update_model path).res
      ErrKind.modelUpdateError) ∧
  (∀ c1 c2 c3 c4 : Except PyErr Unit,
    relabeled (initialize_subsystems c1 c2 c3 c4).1 (initialize_subsystems c1 c2 c3 c4).2
      ErrKind.initializationError) ∧
  (∀ (ag : MasterAgent) (error : PyErr),
    relabeled (ag.handle_error error).logs (ag.handle_error error).res
      ErrKind.criticalError)

/-- C1 as stated is false at a concrete input: when the model-manager
constructor fails with `bootErr`, `_initialize_subsystems` raises
`InitializationError` by a plain `raise` (no `from e`), so the domain
error's explicit cause is `None`, not the originating exception. -/
theorem C1_counterexample : ¬ C1Claim := by
  intro h
  have h8 := h.2.2.2.2.2.1 (Except.error bootErr) (Except.ok ()) (Except.ok ()) (Except.ok ())
    (PyErr.mk ErrKind.initializationError
      "Critical failure in initializing core components." none (some bootErr)) rfl
  obtain ⟨-, orig, hc, -⟩ := h8
  simp [PyErr.cause] at hc

theorem logMentions_of_mem {logs : List LogEntry} {s : String} (l : LogEntry) (a : String)
    (hmem : l ∈ logs) (h : l.msg = a ++ s) : logMentions logs s :=
  ⟨l, hmem, a, "", by rw [String.append_empty]; exact h⟩

/-- C1 amended: every operation catches the exceptions of its body, logs
them, re-raises its own domain error, and never swallows a failure;
`normalize`, `process_data`, `adapt` and `monitor` additionally include
the originating error text in the log and chain the original as the
explicit cause; `update_model` chains the explicit cause but its log
names only the failing path; initialization and `handle_error` recovery
include the originating text in the log but raise without an explicit
cause, keeping the original only as the implicit context. -/
theorem C1_boundaries_amended :
    (∀ (dn : DataNormalizer) (raw : RawRecord),
      relabeled (dn.normalize raw).logs (dn.normalize raw).res
        ErrKind.normalizationError) ∧
    (∀ (ag : MasterAgent) (raw : RawRecord),
      relabeled (ag.process_data raw).logs (ag.process_data raw).res
        ErrKind.processingError) ∧
    (∀ (ag : MasterAgent) (p : Predictions) (i : RawRecord),
      relabeled (ag.adapt p i).logs (ag.adapt p i).res ErrKind.adaptationError) ∧
    (∀ ag : MasterAgent,
      relabeled ag.monitor.logs ag.monitor.res ErrKind.monitoringError) ∧
    (∀ (ag : MasterAgent) (path : String) (e : PyErr),
      ag.sub.update_model path = Except.error e →
      ag.update_model path =
        ⟨ag, [CallEvent.updateModelCall path],
          [logErrorEntry ("Failed to update model from " ++ path)],
          Except.error (PyErr.mk ErrKind.modelUpdateError
            ("Failed to update model from " ++ path) (some e) (some e))⟩) ∧
    (∀ (c1 c2 c3 c4 : Except PyErr Unit) (e : PyErr),
      initBody c1 c2 c3 c4 = Except.error e →
      initialize_subsystems c1 c2 c3 c4 =
        ([logErrorEntry ("Failed to initialize subsystems: " ++ e.msg)],
         Except.error (PyErr.mk ErrKind.initializationError
           "Critical failure in initializing core components." none (some e)))) ∧
    (∀ (ag : MasterAgent) (error err : PyErr),
      (ag.handle_error error).res = Except.error err →
      err.kind = ErrKind.criticalError ∧ err.cause = none ∧
      ∃ orig, err.ctx = some orig ∧
        (⟨LogLevel.critical, "Failed to handle error: " ++ orig.msg⟩ : LogEntry) ∈
          (ag.handle_error error).logs) ∧
    (∀ (ag : MasterAgent) (raw : RawRecord) (e : PyErr),
      (ag.data_normalizer.normalize raw).res = Except.error e →
      ∃ err, (ag.process_data raw).res = Except.error err) := by
  refine ⟨?_, ?_, ?_, ?_, ?_, ?_, ?_, ?_⟩
  · -- normalize
    intro dn raw err herr
    cases h : allSameLength raw with
    | false =>
        rw [normalize_ragged dn raw h] at herr ⊢
        simp only [Except.error.injEq] at herr
        subst herr
        exact ⟨rfl, raggedErr, rfl,
          logMentions_of_mem
            (⟨LogLevel.error, "Normalization failed: " ++ raggedErr.msg⟩ : LogEntry)
            "Normalization failed: " (List.mem_singleton.mpr rfl) rfl⟩
    | true =>
        rw [normalize_wellformed dn raw h] at herr
        simp at herr
  · -- process_data
    intro ag raw err herr
    cases hn : (ag.data_normalizer.normalize raw).res with
    | error e =>
        rw [process_data_norm_error ag raw e hn] at herr ⊢
        simp only [Except.error.injEq] at herr
        subst herr
        refine ⟨rfl, e, rfl, logMentions_of_mem
          (logErrorEntry ("Data processing failed: " ++ e.msg))
          ("[ERROR] MasterAgent: " ++ "Data processing failed: ") ?_ ?_⟩
        · exact List.mem_append_right _ (List.mem_singleton.mpr rfl)
        · exact (String.append_assoc _ _ _).symm
    | ok t =>
        cases hp : ag.sub.predict t with
        | error e =>
            rw [process_data_predict_error ag raw t e hn hp] at herr ⊢
            simp only [Except.error.injEq] at herr
            subst herr
            refine ⟨rfl, e, rfl, logMentions_of_mem
              (logErrorEntry ("Data processing failed: " ++ e.msg))
              ("[ERROR] MasterAgent: " ++ "Data processing failed: ") ?_ ?_⟩
            · exact List.mem_append_right _ (List.mem_singleton.mpr rfl)
            · exact (String.append_assoc _ _ _).symm
        | ok preds =>
            cases ha : (ag.adapt preds raw).res with
            | error e =>
                rw [process_data_adapt_error ag raw t preds e hn hp ha] at herr ⊢
                simp only [Except.error.injEq] at herr
                subst herr
                refine ⟨rfl, e, rfl, logMentions_of_mem
                  (logErrorEntry ("Data processing failed: " ++ e.msg))
                  ("[ERROR] MasterAgent: " ++ "Data processing failed: ") ?_ ?_⟩
                · exact List.mem_append_right _ (List.mem_singleton.mpr rfl)
                · exact (String.append_assoc _ _ _).symm
            | ok out =>
                rw [process_data_ok ag raw t preds out hn hp ha] at herr
                simp at herr
  · -- adapt
    intro ag p i err herr
    cases hh : ag.sub.get_health with
    | error e =>
        rw [adapt_health_error ag p i e hh] at herr ⊢
        simp only [Except.error.injEq] at herr
        subst herr
        exact ⟨rfl, e, rfl, logMentions_of_mem
          (logErrorEntry ("Adaptation failed: " ++ e.msg))
          ("[ERROR] MasterAgent: " ++ "Adaptation failed: ")
          (List.mem_singleton.mpr rfl) (String.append_assoc _ _ _).symm⟩
    | ok hv =>
        cases h2 : ag.sub.adapt p hv i with
        | error e =>
            rw [adapt_msg_error ag p i hv e hh h2] at herr ⊢
            simp only [Except.error.injEq] at herr
            subst herr
            exact ⟨rfl, e, rfl, logMentions_of_mem
              (logErrorEntry ("Adaptation failed: " ++ e.msg))
              ("[ERROR] MasterAgent: " ++ "Adaptation failed: ")
              (List.mem_singleton.mpr rfl) (String.append_assoc _ _ _).symm⟩
        | ok out =>
            rw [adapt_ok ag p i hv out hh h2] at herr
            simp at herr
  · -- monitor
    intro ag err herr
    cases hm : ag.sub.monitor with
    | error e =>
        rw [monitor_error ag e hm] at herr ⊢
        simp only [Except.error.injEq] at herr
        subst herr
        exact ⟨rfl, e, rfl, logMentions_of_mem
          (logErrorEntry ("Monitoring failed: " ++ e.msg))
          ("[ERROR] MasterAgent: " ++ "Monitoring failed: ")
          (List.mem_singleton.mpr rfl) (String.append_assoc _ _ _).symm⟩
    | ok h =>
        rw [show ag.monitor = ⟨ag, [CallEvent.monitorCall], [], Except.ok h⟩ from by
          simp only [MasterAgent.monitor, hm]] at herr
        simp at herr
  · -- update_model
    intro ag path e h
    exact update_model_error ag path e h
  · -- initialization
    intro c1 c2 c3 c4 e h
    simp only [initialize_subsystems, h]
  · -- handle_error
    intro ag error err herr
    by_cases hk1 : error.kind = ErrKind.dataProcessingError
    · cases hr : ag.sub.recover with
      | ok u =>
          cases u
          rw [handle_error_dp_ok ag error hk1 hr] at herr
          simp at herr
      | error e =>
          rw [handle_error_dp_fail ag error e hk1 hr] at herr ⊢
          simp only [Except.error.injEq] at herr
          subst herr
          exact ⟨rfl, rfl, e, rfl, List.mem_cons_of_mem _ (List.mem_singleton.mpr rfl)⟩
    · by_cases hk2 : error.kind = ErrKind.modelPredictionError
      · cases hl : lookupFallbackModel ag.config with
        | error e =>
            rw [handle_error_mp_lookup_fail ag error e hk2 hl] at herr ⊢
            simp only [Except.error.injEq] at herr
            subst herr
            exact ⟨rfl, rfl, e, rfl, List.mem_cons_of_mem _ (List.mem_singleton.mpr rfl)⟩
        | ok p =>
            cases hu : ag.sub.update_model p with
            | ok u =>
                cases u
                rw [handle_error_mp_update_ok ag error p hk2 hl hu] at herr
                simp at herr
            | error e =>
                rw [handle_error_mp_update_fail ag error p e hk2 hl hu] at herr ⊢
                simp only [Except.error.injEq] at herr
                subst herr
                refine ⟨rfl, rfl,
                  PyErr.mk ErrKind.modelUpdateError
                    ("Failed to update model from " ++ p) (some e) (some e), rfl, ?_⟩
                exact List.mem_cons_of_mem _
                  (List.mem_cons_of_mem _ (List.mem_singleton.mpr rfl))
      · rw [handle_error_other ag error hk1 hk2] at herr
        simp at herr
  · -- no failure swallowed in process_data
    intro ag raw e h
    rw [process_data_norm_error ag raw e h]
    exact ⟨_, rfl⟩

/-- Witness for C1 amended: the `update_model` conjunct at a concrete
agent, path and subsystem failure. -/
theorem C1_witness :
    agFail.update_model "p.bin" =
      ⟨agFail, [CallEvent.updateModelCall "p.bin"],
        [logErrorEntry ("Failed to update model from " ++ "p.bin")],
        Except.error (PyErr.mk ErrKind.modelUpdateError
          ("Failed to update model from " ++ "p.bin") (some bootErr) (some bootErr))⟩ :=
  C1_boundaries_amended.2.2.2.2.1 agFail "p.bin" bootErr rfl

end Integration
